import Mathlib

/-!
Verification of the Collecto stop-sheet generator (`collecto.py`).

The program is a single Django view plus helpers:
  - `_fetch_collecto_feature_by_code` queries a WFS service and scans the
    returned feature collection for the first feature whose `code_stop`
    property (coerced to `str` and stripped) equals the stripped requested
    code;
  - `_download_image` performs one HTTP GET and collapses every exception
    to `None`;
  - `_scaled_image_flowable` reads the intrinsic pixel size of an image and
    scales it to a target width, preserving the aspect ratio;
  - `_build_pdf` assembles the ReportLab story (title, map image or
    placeholder, names, two address paragraphs, stop photo or placeholder);
  - `info` orchestrates the pipeline and maps outcomes to HTTP responses.

The embedding below is shallow: Python dict values that the program reads
are a small inductive type `PyVal`; byte strings are `List UInt8`; the
network and the image decoder (ReportLab `ImageReader.getSize`, an external
library) are explicit environment parameters; exception flow is `Except` /
`Option`; point dimensions computed by the layout code are exact rationals.
The ReportLab rendering pass (`doc.build`) serialises the story to PDF
bytes and embeds a wall-clock creation timestamp; it is modelled by the
`PdfDoc` record carrying the clock value together with the story.
-/

namespace Collecto

/-- Raw bytes of an HTTP response body or image buffer (`bytes` in Python). -/
abbrev Bytes := List UInt8

/-- Python values that can sit in a GeoJSON `properties` mapping as read by
the program: strings, integers, and `None`. -/
inductive PyVal where
  | strV (s : String)
  | intV (n : Int)
  | noneV
deriving DecidableEq, Repr

/-- Python `str(v)`: identity on strings, decimal rendering of integers
(`toString` on `Int` matches Python), and `"None"` for `None`. -/
def PyVal.pyStr : PyVal → String
  | .strV s => s
  | .intV n => toString n
  | .noneV => "None"

/-- Python truthiness of a `PyVal`: `None`, `""` and `0` are falsy. -/
def PyVal.truthy : PyVal → Bool
  | .strV s => !s.isEmpty
  | .intV n => n != 0
  | .noneV => false

/-- A `properties` mapping: association list from attribute name to value
(Python dicts have unique keys; lookup takes the first binding). -/
abbrev Props := List (String × PyVal)

/-- Python `props.get(key, default)`. -/
def pyGetD (props : Props) (key : String) (dflt : PyVal) : PyVal :=
  (props.lookup key).getD dflt

/-- Python `str.strip()`: drop whitespace characters from both ends.
(`String.trim` exists in the library but is not kernel-computable; this
structurally recursive version is, and implements the same stripping.) -/
def pyStrip (s : String) : String :=
  let l := s.data.dropWhile Char.isWhitespace
  ⟨(l.reverse.dropWhile Char.isWhitespace).reverse⟩

/-- One GeoJSON feature dict, abstracted to the two observations the
program makes of it: its Python truthiness (`if not feature:` in `info`;
an empty dict is falsy) and the value of its `properties` key
(`none` models both a missing key and an explicit `None`, which
`f.get("properties") or {}` replaces by the empty dict). -/
structure Feature where
  isNonempty : Bool
  properties : Option Props
deriving DecidableEq, Repr

/-- The matching test of `_fetch_collecto_feature_by_code`, line 90-93:
`str(props.get("code_stop", "")).strip() == str(stop_code).strip()`,
where `props = f.get("properties") or {}`. -/
def matchesCode (stopCode : String) (f : Feature) : Bool :=
  let props := f.properties.getD []
  pyStrip (pyGetD props "code_stop" (.strV "")).pyStr == pyStrip stopCode

/-- Outcome of the WFS round trip performed at the top of
`_fetch_collecto_feature_by_code` (`requests.get`, `raise_for_status`,
`r.json()`), seen from the caller:
  - `httpError`: `raise_for_status` raised `requests.HTTPError`
    (non-success status);
  - `otherError`: any other exception out of the transport or the JSON
    decoder (connection error, timeout, malformed body);
  - `success`: a decoded body, whose `features` key holds a list or is
    absent / null (`data.get("features") or []`). -/
inductive WfsResult where
  | httpError (msg : String)
  | otherError (msg : String)
  | success (features : Option (List Feature))
deriving DecidableEq, Repr

/-- Exceptions propagating out of `_fetch_collecto_feature_by_code`,
as discriminated by the two `except` clauses in `info`. -/
inductive FetchError where
  | httpError (msg : String)
  | otherError (msg : String)
deriving DecidableEq, Repr

/-- `_fetch_collecto_feature_by_code` (lines 77-94): propagate transport
errors, otherwise return the first feature of the collection whose
`code_stop` matches the requested code, or `None`. -/
def fetchCollectoFeatureByCode (stopCode : String) (resp : WfsResult) :
    Except FetchError (Option Feature) :=
  match resp with
  | .httpError m => .error (.httpError m)
  | .otherError m => .error (.otherError m)
  | .success features => .ok ((features.getD []).find? (matchesCode stopCode))

/-- Outcome of the single `requests.get` inside `_download_image`:
either some exception was raised (timeout, connection error, or
`raise_for_status` on a non-success status), or a body was received. -/
inductive DlResult where
  | raised
  | body (content : Bytes)
deriving DecidableEq, Repr

/-- `_download_image` (lines 97-103): return `res.content` on success,
`None` on any exception. -/
def downloadImage (r : DlResult) : Option Bytes :=
  match r with
  | .raised => none
  | .body content => some content

/-- One centimetre in points (ReportLab `cm = 72 / 2.54`), as an exact
rational. -/
def cmPts : ℚ := 3600 / 127

/-- One millimetre in points (ReportLab `mm = cm / 10`). -/
def mmPts : ℚ := cmPts / 10

/-- Width of an A4 page in points (ReportLab `A4[0] = 210 * mm`). -/
def a4Width : ℚ := 210 * mmPts

/-- `LEFT_RIGHT_MARGIN = 2 * cm` (line 61). -/
def leftRightMargin : ℚ := 2 * cmPts

/-- `TOP_BOTTOM_MARGIN = 1.6 * cm` (line 62). -/
def topBottomMargin : ℚ := (8 / 5) * cmPts

/-- `FIRST_IMAGE_WIDTH_RATIO = 1.0` (line 67; renamed to fit the
identifier conventions of this file). -/
def firstImageWidthFactor : ℚ := 1

/-- `SECOND_IMAGE_WIDTH_RATIO = 0.66` (line 68). -/
def secondImageWidthFactor : ℚ := 66 / 100

/-- `FIRST_IMAGE_PLACEHOLDER_HEIGHT = 8 * cm` (line 71). -/
def firstImagePlaceholderHeight : ℚ := 8 * cmPts

/-- `SECOND_IMAGE_PLACEHOLDER_HEIGHT = 6 * cm` (line 72). -/
def secondImagePlaceholderHeight : ℚ := 6 * cmPts

/-- `usable_width = A4[0] - doc.leftMargin - doc.rightMargin` (line 159). -/
def usableWidth : ℚ := a4Width - leftRightMargin - leftRightMargin

/-- A ReportLab flowable as appended to the `story` list by `_build_pdf`:
paragraphs (text plus style name), spacers, scaled images, the grey
placeholder table of `_placeholder_box`, and `KeepTogether` wrapping
(the source always wraps a singleton list, modelled as one block). -/
inductive Block where
  | paragraph (text : String) (style : String)
  | spacer (w h : ℚ)
  | image (w h : ℚ)
  | placeholderBox (w h : ℚ) (label : String)
  | keepTogether (inner : Block)
deriving DecidableEq, Repr

/-- Whether a block is a `_placeholder_box` table. -/
def Block.isPlaceholderBox : Block → Bool
  | .placeholderBox _ _ _ => true
  | _ => false

/-- An image-decoding environment: the result of ReportLab
`ImageReader(...).getSize()` on a byte buffer — `none` when constructing
the reader or reading the size raises (empty, truncated or non-image
bytes), `some (iw, ih)` for the intrinsic pixel dimensions. -/
abbrev DecodeEnv := Bytes → Option (Nat × Nat)

/-- `_scaled_image_flowable` (lines 106-125): raise if the buffer is
undecodable or an intrinsic dimension is zero (`if not iw or not ih`),
otherwise scale to the target width preserving the aspect ratio
(`w = target if target > 0 else iw; ratio = w / iw; h = ih * ratio`)
and return the image flowable together with `(w, h)`. -/
def scaledImageFlowable (dims : Option (Nat × Nat)) (targetWidthPts : ℚ) :
    Except String (Block × ℚ × ℚ) :=
  match dims with
  | none => .error "cannot identify image file"
  | some (iw, ih) =>
    if iw = 0 ∨ ih = 0 then .error "Invalid image dimensions (0 x 0)"
    else
      let w : ℚ := if 0 < targetWidthPts then targetWidthPts else (iw : ℚ)
      let ratio : ℚ := w / (iw : ℚ)
      let h : ℚ := (ih : ℚ) * ratio
      .ok (.image w h, w, h)

/-- Python truthiness of an optional byte string (`if img1_bytes:`):
`None` and the empty byte string are falsy. -/
def bytesTruthy : Option Bytes → Bool
  | none => false
  | some b => !b.isEmpty

/-- The first image block of `_build_pdf` (lines 198-206): if the buffer
is truthy, try to scale it and append the flowable; on any exception, or
when the buffer is absent or empty, append the "Map image unavailable"
placeholder at the full usable width. -/
def firstImageBlock (decodeDims : DecodeEnv) (img1Bytes : Option Bytes) : Block :=
  let img1TargetW := usableWidth * firstImageWidthFactor
  if bytesTruthy img1Bytes then
    match scaledImageFlowable (decodeDims (img1Bytes.getD [])) img1TargetW with
    | .ok (flow, _, _) => flow
    | .error _ =>
        .placeholderBox img1TargetW firstImagePlaceholderHeight "Map image unavailable"
  else
    .placeholderBox img1TargetW firstImagePlaceholderHeight "Map image unavailable"

/-- The second image block of `_build_pdf` (lines 228-236): same logic at
two thirds of the usable width, the successful flowable wrapped in
`KeepTogether`, the placeholder labelled "Stop photo unavailable". -/
def secondImageBlock (decodeDims : DecodeEnv) (img2Bytes : Option Bytes) : Block :=
  let img2TargetW := usableWidth * secondImageWidthFactor
  if bytesTruthy img2Bytes then
    match scaledImageFlowable (decodeDims (img2Bytes.getD [])) img2TargetW with
    | .ok (flow, _, _) => .keepTogether flow
    | .error _ =>
        .placeholderBox img2TargetW secondImagePlaceholderHeight "Stop photo unavailable"
  else
    .placeholderBox img2TargetW secondImagePlaceholderHeight "Stop photo unavailable"

/-- The story assembled by `_build_pdf` (lines 190-236), in source order:
title paragraph, spacer, first image block, spacer, names line, spacer,
French address, spacer, Dutch address, spacer, second image block.
Every attribute is read with default `""` and rendered through `str`
by the f-strings. -/
def buildPdf (decodeDims : DecodeEnv) (props : Props)
    (img1Bytes img2Bytes : Option Bytes) : List Block :=
  let codeStop := (pyGetD props "code_stop" (.strV "")).pyStr
  let nameFr := (pyGetD props "name_fr" (.strV "")).pyStr
  let nameNl := (pyGetD props "name_nl" (.strV "")).pyStr
  let housenr := (pyGetD props "housenr" (.strV "")).pyStr
  let roadFr := (pyGetD props "road_fr" (.strV "")).pyStr
  let muFr := (pyGetD props "mu_fr" (.strV "")).pyStr
  let roadNl := (pyGetD props "road_nl" (.strV "")).pyStr
  let muNl := (pyGetD props "mu_nl" (.strV "")).pyStr
  [ .paragraph ("COLLECTO " ++ codeStop) "TitleBig",
    .spacer 1 6,
    firstImageBlock decodeDims img1Bytes,
    .spacer 1 12,
    .paragraph (nameFr ++ " - " ++ nameNl) "H2",
    .spacer 1 6,
    .paragraph ("<b>Adresse :</b> " ++ housenr ++ ", " ++ roadFr ++ " - " ++ muFr) "Body",
    .spacer 1 2,
    .paragraph ("<b>Adres :</b> " ++ roadNl ++ " " ++ housenr ++ " - " ++ muNl) "Body",
    .spacer 1 10,
    secondImageBlock decodeDims img2Bytes ]

/-- An image argument to `_build_pdf` that cannot be rendered: absent or
empty buffer (falsy), undecodable bytes, or a zero intrinsic dimension. -/
def imageInvalid (decodeDims : DecodeEnv) (img : Option Bytes) : Bool :=
  !bytesTruthy img ||
    match decodeDims (img.getD []) with
    | none => true
    | some (iw, ih) => iw == 0 || ih == 0

/-- The document produced by one call of `_build_pdf`: ReportLab
`doc.build` serialises the story to PDF bytes and stamps the file with a
`/CreationDate` taken from the wall clock (`rl_config.invariant` is left
at its default), so the clock reading is part of the output alongside the
document title (`title=f"Collecto {code_stop}"`, line 156) and the story. -/
structure PdfDoc where
  creationDate : Nat
  title : String
  story : List Block
deriving DecidableEq, Repr

/-- `_build_pdf` (lines 146-239) including the serialisation step, with
the wall-clock reading made an explicit parameter. -/
def composePdf (clock : Nat) (decodeDims : DecodeEnv) (props : Props)
    (img1Bytes img2Bytes : Option Bytes) : PdfDoc :=
  { creationDate := clock,
    title := "Collecto " ++ (pyGetD props "code_stop" (.strV "")).pyStr,
    story := buildPdf decodeDims props img1Bytes img2Bytes }

/-- `SERVER_URL` (line 47). -/
def serverUrl : String := "http://localhost"

/-- The single-quote character, used in the not-found message. -/
def sq : String := ⟨[Char.ofNat 39]⟩

/-- `WMS_PRINT_URL.format(SERVER_URL=SERVER_URL, gid=gid)` (lines 53-58
and 266): the GetPrint URL with the `gid` value rendered through `str`. -/
def wmsPrintUrl (gid : PyVal) : String :=
  serverUrl ++
    ":5555/?SERVICE=WMS&VERSION=1.3.0&REQUEST=GetPrint&MAP=/data/collecto.qgz&TEMPLATE=stoplayout&FORMAT=png&CRS=EPSG:3812&DPI=50&ATLAS_PK=" ++
    gid.pyStr

/-- The stop-photo URL (line 270): media base plus `image_stop`. -/
def mediaUrl (imageStop : PyVal) : String :=
  "https://data.mobility.brussels/media/" ++ imageStop.pyStr

/-- The not-found body of `info` (lines 254-256). -/
def notFoundMsg (stop : String) : String :=
  "Collecto stop with code_stop=" ++ sq ++ stop ++ sq ++ " not found in the dataset."

/-- The HTTP outcome of the `info` view: ServerError and NotFound carry a
diagnostic body; OK carries the built document and the suggested
filename `collecto_<code>.pdf`. -/
inductive HandlerResponse where
  | serverError (body : String)
  | notFound (body : String)
  | ok (pdf : List Block) (filename : String)
deriving DecidableEq, Repr

/-- A network environment for the two image downloads: the outcome of
`requests.get` per URL. -/
abbrev NetEnv := String → DlResult

/-- The `info` view (lines 242-281). Alongside the response it returns
the list of URLs for which a download was attempted, in program order
(the Python code performs these effects inline; the log makes them
observable). Transport failures of the WFS query map to the two
ServerError bodies; a falsy feature (absent, or an empty dict) maps to
NotFound; `gid` triggers the map download whenever it `is not None`, and
`image_stop` triggers the photo download whenever it is truthy; the story
is built by `_build_pdf`, which cannot raise in this model, so the
`except` around it is not represented. -/
def info (net : NetEnv) (decodeDims : DecodeEnv) (wfs : WfsResult)
    (stop : String) : HandlerResponse × List String :=
  match fetchCollectoFeatureByCode stop wfs with
  | .error (.httpError e) => (.serverError ("WFS error: " ++ e), [])
  | .error (.otherError e) => (.serverError ("Could not query WFS: " ++ e), [])
  | .ok featureOpt =>
    match featureOpt with
    | none => (.notFound (notFoundMsg stop), [])
    | some feature =>
      if feature.isNonempty then
        let props := feature.properties.getD []
        let gid := pyGetD props "gid" .noneV
        let imageStop := pyGetD props "image_stop" .noneV
        let fetch1 : Option Bytes × List String :=
          if gid = PyVal.noneV then (none, [])
          else
            let url := wmsPrintUrl gid
            (downloadImage (net url), [url])
        let fetch2 : Option Bytes × List String :=
          if imageStop.truthy then
            let url := mediaUrl imageStop
            (downloadImage (net url), [url])
          else (none, [])
        let pdf := buildPdf decodeDims props fetch1.1 fetch2.1
        (.ok pdf ("collecto_" ++ (pyGetD props "code_stop" (.strV stop)).pyStr ++ ".pdf"),
          fetch1.2 ++ fetch2.2)
      else
        (.notFound (notFoundMsg stop), [])

/-- A network environment in which every download attempt fails. -/
def noNet : NetEnv := fun _ => .raised

/-- A decoding environment in which no byte buffer is a readable image. -/
def noDecode : DecodeEnv := fun _ => none

/-- `List.find?` skips a prefix on which the predicate is false. -/
lemma find?_append_of_forall_false {α : Type} (p : α → Bool) (pre l : List α)
    (h : ∀ x ∈ pre, p x = false) : (pre ++ l).find? p = l.find? p := by
  induction pre with
  | nil => rfl
  | cons a t ih =>
    have ha : p a = false := h a (List.mem_cons_self a t)
    rw [List.cons_append, List.find?_cons_of_neg _ (by simp [ha])]
    exact ih fun x hx => h x (List.mem_cons_of_mem a hx)

/-- An unrenderable first image argument always yields the map
placeholder at full usable width. -/
lemma firstImageBlock_invalid {d : DecodeEnv} {i : Option Bytes}
    (h : imageInvalid d i = true) :
    firstImageBlock d i =
      .placeholderBox (usableWidth * firstImageWidthFactor)
        firstImagePlaceholderHeight "Map image unavailable" := by
  unfold imageInvalid at h
  unfold firstImageBlock
  cases ht : bytesTruthy i with
  | false => simp [ht]
  | true =>
    rw [ht] at h
    simp only [Bool.not_true, Bool.false_or] at h
    cases hd : d (i.getD []) with
    | none => simp [ht, hd, scaledImageFlowable]
    | some q =>
      obtain ⟨iw, ih⟩ := q
      rw [hd] at h
      have hz : iw = 0 ∨ ih = 0 := by simpa using h
      simp [ht, hd, scaledImageFlowable, hz]

/-- An unrenderable second image argument always yields the photo
placeholder at two thirds of the usable width. -/
lemma secondImageBlock_invalid {d : DecodeEnv} {i : Option Bytes}
    (h : imageInvalid d i = true) :
    secondImageBlock d i =
      .placeholderBox (usableWidth * secondImageWidthFactor)
        secondImagePlaceholderHeight "Stop photo unavailable" := by
  unfold imageInvalid at h
  unfold secondImageBlock
  cases ht : bytesTruthy i with
  | false => simp [ht]
  | true =>
    rw [ht] at h
    simp only [Bool.not_true, Bool.false_or] at h
    cases hd : d (i.getD []) with
    | none => simp [ht, hd, scaledImageFlowable]
    | some q =>
      obtain ⟨iw, ih⟩ := q
      rw [hd] at h
      have hz : iw = 0 ∨ ih = 0 := by simpa using h
      simp [ht, hd, scaledImageFlowable, hz]

/-- C1: the document composer never raises for any attribute mapping,
decoding environment and pair of optional image buffers — it always
returns the full eleven-block story — and every absent, empty,
undecodable or zero-dimension image argument is replaced by the
corresponding labelled placeholder block (positions 2 and 10 of the
story). -/
theorem C1_compose_never_raises (d : DecodeEnv) (p : Props) (i1 i2 : Option Bytes) :
    (buildPdf d p i1 i2).length = 11 ∧
    (imageInvalid d i1 = true →
      (buildPdf d p i1 i2).get? 2 =
        some (.placeholderBox (usableWidth * firstImageWidthFactor)
          firstImagePlaceholderHeight "Map image unavailable")) ∧
    (imageInvalid d i2 = true →
      (buildPdf d p i1 i2).get? 10 =
        some (.placeholderBox (usableWidth * secondImageWidthFactor)
          secondImagePlaceholderHeight "Stop photo unavailable")) := by
  refine ⟨rfl, fun h1 => ?_, fun h2 => ?_⟩
  · simp [buildPdf, firstImageBlock_invalid h1]
  · simp [buildPdf, secondImageBlock_invalid h2]

/-- Witness for C1: a nonempty undecodable buffer and an absent buffer
both produce their placeholders in a fully built story. -/
theorem C1_witness :
    imageInvalid noDecode (some [1]) = true ∧ imageInvalid noDecode none = true ∧
    (buildPdf noDecode [] (some [1]) none).length = 11 ∧
    (buildPdf noDecode [] (some [1]) none).get? 2 =
      some (.placeholderBox (usableWidth * firstImageWidthFactor)
        firstImagePlaceholderHeight "Map image unavailable") ∧
    (buildPdf noDecode [] (some [1]) none).get? 10 =
      some (.placeholderBox (usableWidth * secondImageWidthFactor)
        secondImagePlaceholderHeight "Stop photo unavailable") := by
  have h := C1_compose_never_raises noDecode [] (some [1]) none
  exact ⟨rfl, rfl, h.1, h.2.1 rfl, h.2.2 rfl⟩

/-- C2: when the feature collection contains two or more features whose
stripped `code_stop` equals the stripped requested code, resolution
returns the first such feature in collection order and ignores all later
matches. -/
theorem C2_resolution_first_match (code : String) (pre mid post : List Feature)
    (f g : Feature)
    (hpre : ∀ x ∈ pre, matchesCode code x = false)
    (hf : matchesCode code f = true)
    (hg : matchesCode code g = true) :
    fetchCollectoFeatureByCode code (.success (some (pre ++ f :: (mid ++ g :: post)))) =
      .ok (some f) := by
  have _ := hg
  simp only [fetchCollectoFeatureByCode, Option.getD_some]
  rw [find?_append_of_forall_false _ _ _ hpre, List.find?_cons_of_pos _ hf]

/-- Witness for C2: with two matching features for code 7, the first one
is returned and the later match is ignored. -/
theorem C2_witness :
    matchesCode "7" ⟨true, some [("code_stop", .strV "7")]⟩ = true ∧
    matchesCode "7" ⟨true, some [("code_stop", .strV " 7 ")]⟩ = true ∧
    fetchCollectoFeatureByCode "7"
      (.success (some [⟨true, some [("code_stop", .strV "X")]⟩,
        ⟨true, some [("code_stop", .strV "7")]⟩,
        ⟨true, some [("code_stop", .strV " 7 ")]⟩])) =
      .ok (some ⟨true, some [("code_stop", .strV "7")]⟩) := by
  refine ⟨by decide, by decide, ?_⟩
  exact C2_resolution_first_match "7" [⟨true, some [("code_stop", .strV "X")]⟩] [] []
    ⟨true, some [("code_stop", .strV "7")]⟩ ⟨true, some [("code_stop", .strV " 7 ")]⟩
    (by decide) (by decide) (by decide)

/-- C3: the requested code matches a feature carrying a string
`code_stop` exactly when the two strings are equal after stripping
surrounding whitespace on both sides — so matching is strip-insensitive
and, string equality being case-sensitive, case-sensitive. -/
theorem C3_match_strip_insensitive (code s : String) (b : Bool) :
    matchesCode code ⟨b, some [("code_stop", .strV s)]⟩ = true ↔
      pyStrip s = pyStrip code := by
  simp [matchesCode, pyGetD, PyVal.pyStr]

/-- Witness for C3: code " ABC " matches `code_stop` "ABC" while "abc"
does not. -/
theorem C3_witness :
    matchesCode " ABC " ⟨true, some [("code_stop", .strV "ABC")]⟩ = true ∧
    matchesCode "abc" ⟨true, some [("code_stop", .strV "ABC")]⟩ = false := by
  constructor
  · exact (C3_match_strip_insensitive " ABC " "ABC" true).mpr (by decide)
  · cases hm : matchesCode "abc" ⟨true, some [("code_stop", .strV "ABC")]⟩ with
    | false => rfl
    | true =>
      exact absurd ((C3_match_strip_insensitive "abc" "ABC" true).mp hm) (by decide)

/-- C4: every transport-level failure of the WFS query propagates out of
the resolver as a distinct error, and the request handler maps it to a
ServerError response whose body carries the diagnostic text — never to a
NotFound response. -/
theorem C4_transport_failure_server_error (net : NetEnv) (d : DecodeEnv)
    (stop msg : String) :
    fetchCollectoFeatureByCode stop (.httpError msg) = .error (.httpError msg) ∧
    fetchCollectoFeatureByCode stop (.otherError msg) = .error (.otherError msg) ∧
    info net d (.httpError msg) stop = (.serverError ("WFS error: " ++ msg), []) ∧
    info net d (.otherError msg) stop =
      (.serverError ("Could not query WFS: " ++ msg), []) :=
  ⟨rfl, rfl, rfl, rfl⟩

/-- C5: when no feature of the returned collection matches the requested
code (in particular when the collection is empty or absent), the handler
returns NotFound with the diagnostic message and produces no PDF. -/
theorem C5_no_match_not_found (net : NetEnv) (d : DecodeEnv) (stop : String)
    (features : Option (List Feature))
    (h : (features.getD []).find? (matchesCode stop) = none) :
    info net d (.success features) stop = (.notFound (notFoundMsg stop), []) := by
  simp [info, fetchCollectoFeatureByCode, h]

/-- Witness for C5: the empty collection yields NotFound for code 99. -/
theorem C5_witness :
    ((some ([] : List Feature)).getD []).find? (matchesCode "99") = none ∧
    info noNet noDecode (.success (some [])) "99" =
      (.notFound (notFoundMsg "99"), []) :=
  ⟨rfl, C5_no_match_not_found noNet noDecode "99" (some []) rfl⟩

/-- C6 counterexample: for a successful download with an empty body the
fetcher returns the empty byte buffer, not the Absent signal `none` —
refuting the claim that an empty body is mapped to Absent by the
fetcher itself. -/
theorem C6_counterexample :
    downloadImage (DlResult.body []) = some [] ∧
    some ([] : Bytes) ≠ (none : Option Bytes) :=
  ⟨rfl, fun h => nomatch h⟩

/-- C6 (amended): the fetcher never raises past its boundary — every
raised exception (timeout, connection error, non-success status)
collapses to Absent, and a received body is returned as is; an empty
body comes back as the empty buffer, which the composer then treats
exactly like an absent image, emitting the placeholder. -/
theorem C6_fetch_absorbs_failures (d : DecodeEnv) :
    downloadImage .raised = none ∧
    (∀ b : Bytes, downloadImage (.body b) = some b) ∧
    firstImageBlock d (some []) =
      .placeholderBox (usableWidth * firstImageWidthFactor)
        firstImagePlaceholderHeight "Map image unavailable" ∧
    secondImageBlock d (some []) =
      .placeholderBox (usableWidth * secondImageWidthFactor)
        secondImagePlaceholderHeight "Stop photo unavailable" :=
  ⟨rfl, fun _ => rfl, rfl, rfl⟩

/-- C7: for positive intrinsic dimensions and a positive target width,
the scaling helper emits an image block of exactly the target width and
of height `ih * (w / iw)`, preserving the aspect ratio exactly. -/
theorem C7_scaling_preserves_aspect (iw ih : ℕ) (w : ℚ)
    (hiw : 0 < iw) (hih : 0 < ih) (hw : 0 < w) :
    scaledImageFlowable (some (iw, ih)) w =
      .ok (.image w ((ih : ℚ) * (w / (iw : ℚ))), w, (ih : ℚ) * (w / (iw : ℚ))) := by
  have h0 : ¬(iw = 0 ∨ ih = 0) := by omega
  simp [scaledImageFlowable, h0, if_pos hw]

/-- Witness for C7: intrinsic size 1000 by 500 scaled to width 300
yields height exactly 150. -/
theorem C7_witness :
    (0 : ℚ) < 300 ∧
    scaledImageFlowable (some (1000, 500)) 300 = .ok (.image 300 150, 300, 150) := by
  have h := C7_scaling_preserves_aspect 1000 500 300 (by norm_num) (by norm_num)
    (by norm_num)
  have e : ((500 : ℕ) : ℚ) * (300 / ((1000 : ℕ) : ℚ)) = 150 := by norm_num
  refine ⟨by norm_num, ?_⟩
  rw [h, e]

/-- C8: when the resolved feature matches the code but its attributes
carry no `gid` and an empty `image_stop`, the handler attempts no
download at all (the fetch log is empty) and returns a document whose
two image positions hold the "Map image unavailable" and "Stop photo
unavailable" placeholders — exactly two placeholder blocks. -/
theorem C8_no_gid_empty_photo (net : NetEnv) (d : DecodeEnv) (stop : String)
    (props : Props)
    (hgid : props.lookup "gid" = none)
    (himg : props.lookup "image_stop" = some (PyVal.strV ""))
    (hmatch : matchesCode stop ⟨true, some props⟩ = true) :
    info net d (.success (some [⟨true, some props⟩])) stop =
      (.ok (buildPdf d props none none)
        ("collecto_" ++ (pyGetD props "code_stop" (.strV stop)).pyStr ++ ".pdf"), []) ∧
    (buildPdf d props none none).get? 2 =
      some (.placeholderBox (usableWidth * firstImageWidthFactor)
        firstImagePlaceholderHeight "Map image unavailable") ∧
    (buildPdf d props none none).get? 10 =
      some (.placeholderBox (usableWidth * secondImageWidthFactor)
        secondImagePlaceholderHeight "Stop photo unavailable") ∧
    (buildPdf d props none none).countP Block.isPlaceholderBox = 2 := by
  refine ⟨?_, rfl, rfl, rfl⟩
  simp only [info, fetchCollectoFeatureByCode, Option.getD_some,
    List.find?_cons_of_pos _ hmatch, pyGetD, hgid, himg,
    Option.getD_some, Option.getD_none]
  simp [PyVal.truthy, show "".isEmpty = true from rfl]

/-- Witness for C8: a concrete feature for code 42 with no `gid` and an
empty `image_stop` gives a download-free response with two placeholder
blocks. -/
theorem C8_witness :
    List.lookup "gid" [("code_stop", PyVal.strV "42"), ("image_stop", PyVal.strV "")]
      = none ∧
    matchesCode "42"
      ⟨true, some [("code_stop", PyVal.strV "42"), ("image_stop", PyVal.strV "")]⟩
      = true ∧
    info noNet noDecode
      (.success (some
        [⟨true, some [("code_stop", PyVal.strV "42"), ("image_stop", PyVal.strV "")]⟩]))
      "42" =
      (.ok (buildPdf noDecode
          [("code_stop", PyVal.strV "42"), ("image_stop", PyVal.strV "")] none none)
        ("collecto_" ++
          (pyGetD [("code_stop", PyVal.strV "42"), ("image_stop", PyVal.strV "")]
            "code_stop" (.strV "42")).pyStr ++ ".pdf"), []) ∧
    (buildPdf noDecode [("code_stop", PyVal.strV "42"), ("image_stop", PyVal.strV "")]
      none none).countP Block.isPlaceholderBox = 2 := by
  have h := C8_no_gid_empty_photo noNet noDecode "42"
    [("code_stop", PyVal.strV "42"), ("image_stop", PyVal.strV "")] rfl rfl (by decide)
  exact ⟨rfl, by decide, h.1, h.2.2.2⟩

/-- C9: composition is deterministic — the story and the document title
are functions of the attribute mapping, the decoding environment and the
image buffers alone. ReportLab stamps the serialised file with a
wall-clock creation date (the `invariant` configuration is left at its
default), so byte-identity across calls fails; per the claim, the
document structure of two builds with identical inputs is then required
to be identical, and it is: it does not depend on the clock. -/
theorem C9_structure_clock_independent (t1 t2 : Nat) (d : DecodeEnv) (p : Props)
    (i1 i2 : Option Bytes) :
    (composePdf t1 d p i1 i2).story = (composePdf t2 d p i1 i2).story ∧
    (composePdf t1 d p i1 i2).title = (composePdf t2 d p i1 i2).title :=
  ⟨rfl, rfl⟩

/-- C10: both sides of the match are coerced to strings — a feature
whose `code_stop` is the integer n matches exactly the codes whose
stripped form equals the stripped decimal rendering of n, and a feature
with no `code_stop` at all is compared as the empty string, matching
exactly the codes that strip to the empty string. -/
theorem C10_coerced_comparison (code : String) (n : ℤ) (b : Bool) :
    (matchesCode code ⟨b, some [("code_stop", .intV n)]⟩ = true ↔
      pyStrip code = pyStrip (toString n)) ∧
    (matchesCode code ⟨b, some []⟩ = true ↔ pyStrip code = "") := by
  constructor
  · rw [show matchesCode code ⟨b, some [("code_stop", .intV n)]⟩ =
        (pyStrip (toString n) == pyStrip code) from rfl, beq_iff_eq, eq_comm]
  · rw [show matchesCode code ⟨b, some []⟩ = ("" == pyStrip code) from rfl,
      beq_iff_eq, eq_comm]

/-- Witness for C10: code "42" matches a numeric `code_stop` of 42, and
a whitespace-only code matches a feature with no `code_stop` key. -/
theorem C10_witness :
    matchesCode "42" ⟨true, some [("code_stop", PyVal.intV 42)]⟩ = true ∧
    matchesCode "  " ⟨true, some []⟩ = true :=
  ⟨((C10_coerced_comparison "42" 42 true).1).mpr (by decide),
   ((C10_coerced_comparison "  " 42 true).2).mpr (by decide)⟩

end Collecto
